import Mathlib

/-!
Shallow embedding of `src/rundeck/connection.py` (rundeckrun).

The file models the two classes of that module:

* `RundeckResponse` — a lazily parsed wrapper around an HTTP response, whose
  accessors (`etree`, `pprint`, `as_dict`, `api_version`, `success`, `message`)
  are memoized by the `memoize` decorator.  The decorator keeps one cache
  dictionary per decorated function, keyed by the string rendering of the
  argument tuple, which for these accessors is the textual identity of the
  instance.  We model the caches explicitly (`Caches`), thread them through the
  accessors, and additionally count how many times each underlying computation
  body runs (`Counts`), so memoization claims become provable statements.

* `RundeckConnection` — credential checking, port suppression, URL building
  (`make_url`) and request execution (`execute_cmd`).

Python strings that are manipulated character by character (URLs) are modelled
as `Str := List Char`; strings that are only compared for equality (tags,
attribute keys, memo keys, bodies) are Lean `String`s.  XML parsing itself is
library code (`xml.etree.ElementTree` re-exported through the repository module
`transforms`), so parsers appear as explicit function arguments
`P : String → Option Elem` (`none` models a parse failure, which the library
raises as its parse-error exception); everything downstream of parsing is
translated from `connection.py`.
-/

namespace Rundeckrun

/-- Python strings handled at character level (URL building). -/
abbrev Str := List Char

/-- The exceptions observable from `connection.py`: the XML parse error raised
by the parsing libraries, the `AttributeError` raised when a `None` lookup
result is dereferenced, `ValueError` from `int`, the repository exception
`InvalidAuthentication`, Python `NotImplementedError`, and the HTTP error
raised by `raise_for_status` (carrying status code and body). -/
inductive PyError where
  | parseError : PyError
  | attributeError : PyError
  | valueError : PyError
  | invalidAuthentication : String → PyError
  | notImplementedError : String → PyError
  | httpError : Nat → String → PyError
deriving DecidableEq

/-- Whether a fallible computation returned normally. -/
def exceptIsOk {ε α : Type} : Except ε α → Bool
  | .ok _ => true
  | .error _ => false

instance exceptDecEq {ε α : Type} [DecidableEq ε] [DecidableEq α] :
    DecidableEq (Except ε α)
  | .ok x, .ok y =>
    if h : x = y then .isTrue (by rw [h])
    else .isFalse (by intro he; cases he; exact h rfl)
  | .ok _, .error _ => .isFalse (by intro h; cases h)
  | .error _, .ok _ => .isFalse (by intro h; cases h)
  | .error e, .error f =>
    if h : e = f then .isTrue (by rw [h])
    else .isFalse (by intro he; cases he; exact h rfl)

/-- A parsed XML element, mirroring `xml.etree.ElementTree.Element`: tag,
attribute dictionary, text content (absent for empty elements), children. -/
inductive Elem where
  | mk : String → List (String × String) → Option String → List Elem → Elem

/-- Tag of an element. -/
def Elem.tag : Elem → String
  | .mk t _ _ _ => t

/-- Attribute dictionary of an element. -/
def Elem.attrib : Elem → List (String × String)
  | .mk _ a _ _ => a

/-- Text content of an element (`Element.text`, may be `None`). -/
def Elem.text : Elem → Option String
  | .mk _ _ tx _ => tx

/-- Children of an element. -/
def Elem.children : Elem → List Elem
  | .mk _ _ _ cs => cs

/-- Model of `Element.find(tag)`: the first direct child with the given tag,
or `None`. -/
def Elem.findTag (e : Elem) (t : String) : Option Elem :=
  e.children.find? (fun c => c.tag == t)

/-- Model of `Element.attrib.get(key)`: dictionary lookup on the attribute
dictionary. -/
def Elem.attribGet (e : Elem) (k : String) : Option String :=
  e.attrib.lookup k

/-- The raw HTTP response handed to the wrapper (`requests.Response`): we keep
the fields `connection.py` reads, status code and body text. -/
structure HTTPResponse where
  status_code : Nat
  text : String
deriving DecidableEq

/-- The `RundeckResponse` instance state set by `__init__`: the stored raw
response, the stored projection method, and the textual identity of the
instance, which is what the memoize key `str(args) + str(kwargs)` reduces to
for these zero-argument accessors.  The projection method has an abstract type
`δ`; applying it is modelled by an explicit `applyFn` argument of
`as_dictGet`, which keeps the structure definition non-recursive. -/
structure RundeckResponse (δ : Type) where
  _response : HTTPResponse
  _as_dict_method : Option δ
  instanceId : String

/-- Model of `RundeckResponse.__init__`: stores the response, and stores
`None` into `_as_dict_method` (the source line is `self._as_dict_method =
None`, which ignores the `as_dict_method` parameter). -/
def RundeckResponse.init {δ : Type} (response : HTTPResponse)
    (as_dict_method : Option δ) (instanceId : String) : RundeckResponse δ :=
  { _response := response, _as_dict_method := none, instanceId := instanceId }

/-- The `response` property. -/
def RundeckResponse.response {δ : Type} (w : RundeckResponse δ) : HTTPResponse :=
  w._response

/-- The `body` property: `self._response.text`. -/
def RundeckResponse.body {δ : Type} (w : RundeckResponse δ) : String :=
  w._response.text

/-- The six memoize caches, one dictionary per decorated accessor (the
decorator attaches one fresh dict to each decorated function), each keyed by
instance identity.  `ρ` is the result type of the structured projection. -/
structure Caches (ρ : Type) where
  etree : List (String × Elem)
  pprint : List (String × String)
  as_dict : List (String × Option ρ)
  api_version : List (String × Int)
  success : List (String × Bool)
  message : List (String × Option String)

/-- The cache state at class-definition time: every dictionary empty. -/
abbrev Caches.start {ρ : Type} : Caches ρ :=
  ⟨[], [], [], [], [], []⟩

/-- How many times each underlying accessor body ran during one call. -/
structure Counts where
  etree : Nat := 0
  pprint : Nat := 0
  as_dict : Nat := 0
  api_version : Nat := 0
  success : Nat := 0
  message : Nat := 0
deriving DecidableEq

/-- Pointwise sum of run counts. -/
def Counts.add (a b : Counts) : Counts :=
  ⟨a.etree + b.etree, a.pprint + b.pprint, a.as_dict + b.as_dict,
   a.api_version + b.api_version, a.success + b.success, a.message + b.message⟩

/-- Result of one accessor call: the value or the exception, the cache state
afterwards, and the run counts of the underlying computations. -/
structure AccessOut (ρ : Type) (α : Type) where
  res : Except PyError α
  caches : Caches ρ
  counts : Counts

/-- The `etree` accessor: on a cache miss, run `ElementTree.fromstring(self.body)`
(the parser argument `P`; `none` models the parse-error exception).  A raising
computation stores nothing in the cache. -/
def etreeGet {ρ δ : Type} (P : String → Option Elem) (w : RundeckResponse δ)
    (c : Caches ρ) : AccessOut ρ Elem :=
  match c.etree.lookup w.instanceId with
  | some v => ⟨.ok v, c, {}⟩
  | none =>
    match P w.body with
    | some t => ⟨.ok t, { c with etree := (w.instanceId, t) :: c.etree }, { etree := 1 }⟩
    | none => ⟨.error .parseError, c, { etree := 1 }⟩

/-- The `pprint` accessor: `xml_dom.parseString(self.body).toprettyxml()`,
with the pretty-printing parse modelled by `PP`. -/
def pprintGet {ρ δ : Type} (PP : String → Option String) (w : RundeckResponse δ)
    (c : Caches ρ) : AccessOut ρ String :=
  match c.pprint.lookup w.instanceId with
  | some v => ⟨.ok v, c, {}⟩
  | none =>
    match PP w.body with
    | some s => ⟨.ok s, { c with pprint := (w.instanceId, s) :: c.pprint }, { pprint := 1 }⟩
    | none => ⟨.error .parseError, c, { pprint := 1 }⟩

/-- The `as_dict` accessor: `None` if `self._as_dict_method is None`, else
`self._as_dict_method(self)`; `applyFn` interprets the stored method value. -/
def as_dictGet {ρ δ : Type} (applyFn : δ → RundeckResponse δ → ρ)
    (w : RundeckResponse δ) (c : Caches ρ) : AccessOut ρ (Option ρ) :=
  match c.as_dict.lookup w.instanceId with
  | some v => ⟨.ok v, c, {}⟩
  | none =>
    let v : Option ρ :=
      match w._as_dict_method with
      | none => none
      | some f => some (applyFn f w)
    ⟨.ok v, { c with as_dict := (w.instanceId, v) :: c.as_dict }, { as_dict := 1 }⟩

/-- Decimal digit value of the characters used by `int`. -/
def digitsVal (cs : List Char) : Option Nat :=
  if cs = [] then none
  else if cs.all Char.isDigit then
    some (cs.foldl (fun a c => a * 10 + (c.toNat - 48)) 0)
  else none

/-- Model of `int(s)` on a string: optional sign, decimal digits, surrounding
whitespace tolerated; otherwise `ValueError`. -/
def pyInt (s : String) : Except PyError Int :=
  match s.trim.toList with
  | '-' :: rest =>
    match digitsVal rest with
    | some n => .ok (-(n : Int))
    | none => .error .valueError
  | '+' :: rest =>
    match digitsVal rest with
    | some n => .ok (n : Int)
    | none => .error .valueError
  | cs =>
    match digitsVal cs with
    | some n => .ok (n : Int)
    | none => .error .valueError

/-- The `api_version` accessor: `int(self.etree.attrib.get('apiversion', -1))`.
The body runs the memoized `etree` accessor, then looks up the attribute
(default `-1`). -/
def api_versionGet {ρ δ : Type} (P : String → Option Elem) (w : RundeckResponse δ)
    (c : Caches ρ) : AccessOut ρ Int :=
  match c.api_version.lookup w.instanceId with
  | some v => ⟨.ok v, c, {}⟩
  | none =>
    let o := etreeGet P w c
    match o.res with
    | .error e => ⟨.error e, o.caches, { o.counts with api_version := 1 }⟩
    | .ok t =>
      match t.attribGet "apiversion" with
      | none =>
        ⟨.ok (-1), { o.caches with api_version := (w.instanceId, (-1 : Int)) :: o.caches.api_version },
         { o.counts with api_version := 1 }⟩
      | some s =>
        match pyInt s with
        | .ok n =>
          ⟨.ok n, { o.caches with api_version := (w.instanceId, n) :: o.caches.api_version },
           { o.counts with api_version := 1 }⟩
        | .error e => ⟨.error e, o.caches, { o.counts with api_version := 1 }⟩

/-- The `success` accessor: `'success' in self.etree.attrib`.  The body runs
the memoized `etree` accessor and tests key membership. -/
def successGet {ρ δ : Type} (P : String → Option Elem) (w : RundeckResponse δ)
    (c : Caches ρ) : AccessOut ρ Bool :=
  match c.success.lookup w.instanceId with
  | some v => ⟨.ok v, c, {}⟩
  | none =>
    let o := etreeGet P w c
    match o.res with
    | .error e => ⟨.error e, o.caches, { o.counts with success := 1 }⟩
    | .ok t =>
      let v := (t.attribGet "success").isSome
      ⟨.ok v, { o.caches with success := (w.instanceId, v) :: o.caches.success },
       { o.counts with success := 1 }⟩

/-- The `message` accessor: the body reads the memoized `success` accessor,
then the memoized `etree` accessor, finds the `success` or `error` child, and
returns `message_el.find('message').text`.  A `None` result of either `find`
is dereferenced, raising `AttributeError`. -/
def messageGet {ρ δ : Type} (P : String → Option Elem) (w : RundeckResponse δ)
    (c : Caches ρ) : AccessOut ρ (Option String) :=
  match c.message.lookup w.instanceId with
  | some v => ⟨.ok v, c, {}⟩
  | none =>
    let o := successGet P w c
    match o.res with
    | .error e => ⟨.error e, o.caches, { o.counts with message := 1 }⟩
    | .ok b =>
      let o2 := etreeGet P w o.caches
      match o2.res with
      | .error e => ⟨.error e, o2.caches, { (o.counts.add o2.counts) with message := 1 }⟩
      | .ok t =>
        match t.findTag (if b then "success" else "error") with
        | none => ⟨.error .attributeError, o2.caches, { (o.counts.add o2.counts) with message := 1 }⟩
        | some message_el =>
          match message_el.findTag "message" with
          | none => ⟨.error .attributeError, o2.caches, { (o.counts.add o2.counts) with message := 1 }⟩
          | some m =>
            ⟨.ok m.text,
             { o2.caches with message := (w.instanceId, m.text) :: o2.caches.message },
             { (o.counts.add o2.counts) with message := 1 }⟩

/-- Decimal digit character for a value below ten. -/
def digitChar : Nat → Char
  | 0 => '0'
  | 1 => '1'
  | 2 => '2'
  | 3 => '3'
  | 4 => '4'
  | 5 => '5'
  | 6 => '6'
  | 7 => '7'
  | 8 => '8'
  | 9 => '9'
  | _ => '?'

/-- Fuel-driven digit accumulator behind `natToStr`; the fuel is structural so
that concrete values reduce definitionally. -/
def natToStrAux : Nat → Nat → Str → Str
  | 0, _, acc => acc
  | fuel + 1, n, acc =>
    if n < 10 then digitChar n :: acc
    else natToStrAux fuel (n / 10) (digitChar (n % 10) :: acc)

/-- Model of Python `str` on a natural number: decimal digits, most
significant first. -/
def natToStr (n : Nat) : Str :=
  natToStrAux (n + 1) n []

/-- Model of Python `str` on an int: a minus sign followed by the digits for
negative values, the digits alone otherwise. -/
def intToStr (i : Int) : Str :=
  if i < 0 then '-' :: natToStr i.natAbs else natToStr i.natAbs

/-- Model of Python `s.lstrip(c)` for a one-character strip set: drop every
leading occurrence of the character. -/
def pyLstrip (cs : Str) (c : Char) : Str :=
  cs.dropWhile (fun x => x = c)

/-- Model of Python `sep.join(parts)`. -/
def pyJoin (sep : Str) : List Str → Str
  | [] => []
  | [x] => x
  | x :: xs => x ++ sep ++ pyJoin sep xs

/-- Modelled from the spec: the repository module `defaults` (absent from
`src/`) supplies the global default API version constant
`RUNDECK_API_VERSION`; the spec describes it as a positive-integer default
supplied when the caller passes no `api_version`.  No claim depends on the
concrete value. -/
def RUNDECK_API_VERSION : Int := 11

/-- The `RundeckConnection` instance state set by `__init__`.  `auth_header`
models the `X-Rundeck-Auth-Token` default header preset on the persistent
session. -/
structure RundeckConnection where
  protocol : Str
  usr : Option String
  pwd : Option String
  server : Str
  api_token : Option String
  api_version : Int
  auth_header : Option String
  base_url : Str
deriving DecidableEq

/-- Model of `RundeckConnection.__init__`: stores the fields, appends
`:port` to the server when `(protocol == 'http' and port != 80) or
(protocol == 'https' and port != 443)`, raises `InvalidAuthentication` when
api_token, usr and pwd are all `None`, presets the session auth header when a
token is given, raises `NotImplementedError` when instead both usr and pwd are
given, and derives `base_url = protocol + '://' + server + '/api'`. -/
def RundeckConnection.init (server : Str) (protocol : Str) (port : Nat)
    (api_token : Option String) (usr pwd : Option String)
    (api_version : Option Int) : Except PyError RundeckConnection :=
  let api_version := api_version.getD RUNDECK_API_VERSION
  let server' :=
    if (protocol = "http".toList ∧ port ≠ 80) ∨ (protocol = "https".toList ∧ port ≠ 443)
    then server ++ ':' :: natToStr port
    else server
  if api_token = none ∧ usr = none ∧ pwd = none then
    .error (.invalidAuthentication "Must supply either api_token or usr and pwd")
  else if api_token.isSome then
    .ok { protocol := protocol, usr := usr, pwd := pwd, server := server',
          api_token := api_token, api_version := api_version,
          auth_header := api_token,
          base_url := protocol ++ "://".toList ++ server' ++ "/api".toList }
  else if usr.isSome ∧ pwd.isSome then
    .error (.notImplementedError "Username/password authentication is not yet supported")
  else
    .ok { protocol := protocol, usr := usr, pwd := pwd, server := server',
          api_token := api_token, api_version := api_version,
          auth_header := none,
          base_url := protocol ++ "://".toList ++ server' ++ "/api".toList }

/-- Model of `make_url`: `'/'.join([self.base_url, str(self.api_version),
api_url.lstrip('/')])`. -/
def RundeckConnection.make_url (conn : RundeckConnection) (api_url : Str) : Str :=
  pyJoin "/".toList [conn.base_url, intToStr conn.api_version, pyLstrip api_url '/']

/-- Model of `requests.Response.raise_for_status`: raises an HTTP error
carrying status and body for status codes 400 through 599. -/
def raise_for_status (response : HTTPResponse) : Except PyError Unit :=
  if 400 ≤ response.status_code ∧ response.status_code < 600 then
    .error (.httpError response.status_code response.text)
  else
    .ok ()

/-- Model of `execute_cmd`: resolve the URL with `make_url`, issue the request
through the transport (the `requests.request` call, abstracted as a function
from method and url to the raw response), run `raise_for_status`, and wrap the
raw response in a `RundeckResponse` (constructed without a projection
function).  The `parse_response` flag is accepted and ignored, as in the
source.  `instanceId` models the identity of the freshly allocated wrapper. -/
def RundeckConnection.execute_cmd {δ : Type} (transport : Str → Str → HTTPResponse)
    (conn : RundeckConnection) (method : Str) (url : Str)
    (parse_response : Bool) (instanceId : String) :
    Except PyError (RundeckResponse δ) :=
  let u := conn.make_url url
  let response := transport method u
  match raise_for_status response with
  | .error e => .error e
  | .ok _ => .ok (RundeckResponse.init response none instanceId)

/-- Splits a character list into its `/`-separated segments (the segment view
used to state the one-api-version-segment property). -/
def splitSeg : Str → List Str
  | [] => [[]]
  | c :: rest =>
    if c = '/' then [] :: splitSeg rest
    else
      match splitSeg rest with
      | s :: ss => (c :: s) :: ss
      | [] => [[c]]

/-! Concrete sample data, used by witnesses and counterexamples. -/

/-- The `message` element of the sample success body. -/
def melOk : Elem := .mk "message" [] (some "ok") []

/-- The `success` child of the sample success body. -/
def selOk : Elem := .mk "success" [] none [melOk]

/-- Parsed document of the sample success body
`<result success><success><message>ok</message></success></result>`. -/
def rootOk : Elem := .mk "result" [("success", "")] none [selOk]

/-- The `message` element of a second success body. -/
def melOk2 : Elem := .mk "message" [] (some "ok2") []

/-- The `success` child of a second success body. -/
def selOk2 : Elem := .mk "success" [] none [melOk2]

/-- Parsed document of a second, distinct success body. -/
def rootOk2 : Elem := .mk "result" [("success", "")] none [selOk2]

/-- The `message` element of the sample error body. -/
def melErr : Elem := .mk "message" [] (some "bad job id") []

/-- The `error` child of the sample error body. -/
def eelErr : Elem := .mk "error" [] none [melErr]

/-- Parsed document of the sample error body
`<result error><error><message>bad job id</message></error></result>`. -/
def rootErr : Elem := .mk "result" [] none [eelErr]

/-- A well-formed root that carries the success marker but has no children at
all. -/
def rootBare : Elem := .mk "result" [("success", "")] none []

/-- A root whose `success` child exists but lacks a `message` child. -/
def rootNoMsg : Elem := .mk "result" [("success", "x")] none [.mk "success" [] none []]

/-- A sample wrapper over a 200 response with body `b1`. -/
def wOk : RundeckResponse Unit := ⟨⟨200, "b1"⟩, none, "idOk"⟩

/-- A second sample wrapper, over body `b2`, with a distinct identity. -/
def wOk2 : RundeckResponse Unit := ⟨⟨200, "b2"⟩, none, "idOk2"⟩

/-- A sample wrapper over the error body. -/
def wErr : RundeckResponse Unit := ⟨⟨200, "berr"⟩, none, "idErr"⟩

/-- A sample wrapper whose body is not well-formed XML. -/
def wBad : RundeckResponse Unit := ⟨⟨200, "not xml"⟩, none, "idBad"⟩

/-- A stub parser that returns the sample success document for every body. -/
def POk : String → Option Elem := fun _ => some rootOk

/-- A stub parser that maps body `b1` to the first success document and body
`b2` to the second. -/
def P12 : String → Option Elem := fun b =>
  if b = "b1" then some rootOk else if b = "b2" then some rootOk2 else none

/-- A stub parser that fails on every body (no body is well-formed XML). -/
def PNone : String → Option Elem := fun _ => none

/-- A stub pretty-printing parse that succeeds on every body. -/
def PPOk : String → Option String := fun b => some ("pretty " ++ b)

/-- A sample connection record: token-authenticated, http, non-default port. -/
def connB : RundeckConnection :=
  ⟨"http".toList, none, none, "localhost:4440".toList, some "tok", 11, some "tok",
   "http://localhost:4440/api".toList⟩

/-- The URL formula exactly as the spec words it: base_url, slash, the api
version, slash, and the api path with any single leading slash stripped.
Stated only to compare the spec wording against `make_url`, which strips all
leading slashes. -/
def specMakeUrlSingleStrip (conn : RundeckConnection) (api_url : Str) : Str :=
  conn.base_url ++ '/' :: (intToStr conn.api_version ++ '/' ::
    (match api_url with
     | '/' :: rest => rest
     | l => l))

/-! Helper lemmas about single accessor runs: cache-hit forms, and the exact
outcome of a first run from the pristine cache state. -/

theorem etreeGet_hit {ρ δ : Type} {P : String → Option Elem} {w : RundeckResponse δ}
    {c : Caches ρ} {v : Elem} (h : c.etree.lookup w.instanceId = some v) :
    etreeGet P w c = ⟨.ok v, c, {}⟩ := by
  simp [etreeGet, h]

theorem etreeGet_start_ok {ρ δ : Type} {P : String → Option Elem}
    {w : RundeckResponse δ} {root : Elem} (hP : P w.body = some root) :
    etreeGet P w (Caches.start (ρ := ρ)) =
      ⟨.ok root, ⟨[(w.instanceId, root)], [], [], [], [], []⟩, { etree := 1 }⟩ := by
  simp [etreeGet, Caches.start, hP]

theorem etreeGet_start_fail {ρ δ : Type} {P : String → Option Elem}
    {w : RundeckResponse δ} (hP : P w.body = none) :
    etreeGet P w (Caches.start (ρ := ρ)) =
      ⟨.error .parseError, Caches.start, { etree := 1 }⟩ := by
  simp [etreeGet, Caches.start, hP]

theorem successGet_hit {ρ δ : Type} {P : String → Option Elem} {w : RundeckResponse δ}
    {c : Caches ρ} {v : Bool} (h : c.success.lookup w.instanceId = some v) :
    successGet P w c = ⟨.ok v, c, {}⟩ := by
  simp [successGet, h]

theorem successGet_start_ok {ρ δ : Type} {P : String → Option Elem}
    {w : RundeckResponse δ} {root : Elem} (hP : P w.body = some root) :
    successGet P w (Caches.start (ρ := ρ)) =
      ⟨.ok ((root.attribGet "success").isSome),
       ⟨[(w.instanceId, root)], [], [], [],
        [(w.instanceId, (root.attribGet "success").isSome)], []⟩,
       { etree := 1, success := 1 }⟩ := by
  simp [successGet, Caches.start, etreeGet_start_ok hP]

theorem successGet_start_fail {ρ δ : Type} {P : String → Option Elem}
    {w : RundeckResponse δ} (hP : P w.body = none) :
    successGet P w (Caches.start (ρ := ρ)) =
      ⟨.error .parseError, Caches.start, { etree := 1, success := 1 }⟩ := by
  simp [successGet, Caches.start, etreeGet_start_fail hP]

theorem lookup_cons_ne {β : Type} {a k : String} (h : a ≠ k) (v : β)
    (l : List (String × β)) : ((k, v) :: l).lookup a = l.lookup a := by
  rw [List.lookup_cons]
  cases hbk : a == k with
  | true => exact absurd (eq_of_beq hbk) h
  | false => rfl

theorem pprintGet_hit {ρ δ : Type} {PP : String → Option String} {w : RundeckResponse δ}
    {c : Caches ρ} {v : String} (h : c.pprint.lookup w.instanceId = some v) :
    pprintGet PP w c = ⟨.ok v, c, {}⟩ := by
  simp [pprintGet, h]

theorem pprintGet_start_ok {ρ δ : Type} {PP : String → Option String}
    {w : RundeckResponse δ} {s : String} (hPP : PP w.body = some s) :
    pprintGet PP w (Caches.start (ρ := ρ)) =
      ⟨.ok s, ⟨[], [(w.instanceId, s)], [], [], [], []⟩, { pprint := 1 }⟩ := by
  simp [pprintGet, hPP]

theorem as_dictGet_hit {ρ δ : Type} {applyFn : δ → RundeckResponse δ → ρ}
    {w : RundeckResponse δ} {c : Caches ρ} {v : Option ρ}
    (h : c.as_dict.lookup w.instanceId = some v) :
    as_dictGet applyFn w c = ⟨.ok v, c, {}⟩ := by
  simp [as_dictGet, h]

theorem as_dictGet_start {ρ δ : Type} (applyFn : δ → RundeckResponse δ → ρ)
    (w : RundeckResponse δ) :
    as_dictGet applyFn w (Caches.start (ρ := ρ)) =
      ⟨.ok (Option.map (fun f => applyFn f w) w._as_dict_method),
       ⟨[], [], [(w.instanceId, Option.map (fun f => applyFn f w) w._as_dict_method)],
        [], [], []⟩,
       { as_dict := 1 }⟩ := by
  cases h : w._as_dict_method <;> simp [as_dictGet, h]

theorem api_versionGet_hit {ρ δ : Type} {P : String → Option Elem} {w : RundeckResponse δ}
    {c : Caches ρ} {v : Int} (h : c.api_version.lookup w.instanceId = some v) :
    api_versionGet P w c = ⟨.ok v, c, {}⟩ := by
  simp [api_versionGet, h]

theorem api_versionGet_start_noattr {ρ δ : Type} {P : String → Option Elem}
    {w : RundeckResponse δ} {root : Elem} (hP : P w.body = some root)
    (hav : root.attribGet "apiversion" = none) :
    api_versionGet P w (Caches.start (ρ := ρ)) =
      ⟨.ok (-1), ⟨[(w.instanceId, root)], [], [], [(w.instanceId, (-1 : Int))], [], []⟩,
       { etree := 1, api_version := 1 }⟩ := by
  simp [api_versionGet, etreeGet_start_ok hP, hav]

theorem api_versionGet_start_fail {ρ δ : Type} {P : String → Option Elem}
    {w : RundeckResponse δ} (hP : P w.body = none) :
    api_versionGet P w (Caches.start (ρ := ρ)) =
      ⟨.error .parseError, Caches.start, { etree := 1, api_version := 1 }⟩ := by
  simp [api_versionGet, etreeGet_start_fail hP]

theorem messageGet_hit {ρ δ : Type} {P : String → Option Elem} {w : RundeckResponse δ}
    {c : Caches ρ} {v : Option String} (h : c.message.lookup w.instanceId = some v) :
    messageGet P w c = ⟨.ok v, c, {}⟩ := by
  simp [messageGet, h]

theorem messageGet_start_ok {ρ δ : Type} {P : String → Option Elem}
    {w : RundeckResponse δ} {root sel mel : Elem} {sv : String}
    (hP : P w.body = some root) (hs : root.attribGet "success" = some sv)
    (hf : root.findTag "success" = some sel) (hm : sel.findTag "message" = some mel) :
    messageGet P w (Caches.start (ρ := ρ)) =
      ⟨.ok mel.text,
       ⟨[(w.instanceId, root)], [], [], [], [(w.instanceId, true)],
        [(w.instanceId, mel.text)]⟩,
       { etree := 1, success := 1, message := 1 }⟩ := by
  simp [messageGet, successGet_start_ok hP, hs, etreeGet, hf, hm, Counts.add]

theorem messageGet_start_err {ρ δ : Type} {P : String → Option Elem}
    {w : RundeckResponse δ} {root eel mel : Elem}
    (hP : P w.body = some root) (hs : root.attribGet "success" = none)
    (hf : root.findTag "error" = some eel) (hm : eel.findTag "message" = some mel) :
    messageGet P w (Caches.start (ρ := ρ)) =
      ⟨.ok mel.text,
       ⟨[(w.instanceId, root)], [], [], [], [(w.instanceId, false)],
        [(w.instanceId, mel.text)]⟩,
       { etree := 1, success := 1, message := 1 }⟩ := by
  simp [messageGet, successGet_start_ok hP, hs, etreeGet, hf, hm, Counts.add]

theorem messageGet_start_fail {ρ δ : Type} {P : String → Option Elem}
    {w : RundeckResponse δ} (hP : P w.body = none) :
    messageGet P w (Caches.start (ρ := ρ)) =
      ⟨.error .parseError, Caches.start, { etree := 1, success := 1, message := 1 }⟩ := by
  simp [messageGet, successGet_start_fail hP]

/-! Frame lemmas: which cache dictionaries an accessor run can touch. -/

theorem etreeGet_frame {ρ δ : Type} (P : String → Option Elem)
    (w : RundeckResponse δ) (c : Caches ρ) :
    (etreeGet P w c).caches.pprint = c.pprint ∧
    (etreeGet P w c).caches.as_dict = c.as_dict ∧
    (etreeGet P w c).caches.api_version = c.api_version ∧
    (etreeGet P w c).caches.success = c.success ∧
    (etreeGet P w c).caches.message = c.message := by
  cases he : c.etree.lookup w.instanceId <;> cases hp : P w.body <;>
    simp [etreeGet, he, hp]

theorem pprintGet_frame {ρ δ : Type} (PP : String → Option String)
    (w : RundeckResponse δ) (c : Caches ρ) :
    (pprintGet PP w c).caches.etree = c.etree ∧
    (pprintGet PP w c).caches.as_dict = c.as_dict ∧
    (pprintGet PP w c).caches.api_version = c.api_version ∧
    (pprintGet PP w c).caches.success = c.success ∧
    (pprintGet PP w c).caches.message = c.message := by
  cases he : c.pprint.lookup w.instanceId <;> cases hp : PP w.body <;>
    simp [pprintGet, he, hp]

theorem as_dictGet_frame {ρ δ : Type} (applyFn : δ → RundeckResponse δ → ρ)
    (w : RundeckResponse δ) (c : Caches ρ) :
    (as_dictGet applyFn w c).caches.etree = c.etree ∧
    (as_dictGet applyFn w c).caches.pprint = c.pprint ∧
    (as_dictGet applyFn w c).caches.api_version = c.api_version ∧
    (as_dictGet applyFn w c).caches.success = c.success ∧
    (as_dictGet applyFn w c).caches.message = c.message := by
  cases he : c.as_dict.lookup w.instanceId <;> cases hm : w._as_dict_method <;>
    simp [as_dictGet, he, hm]

theorem successGet_frame {ρ δ : Type} (P : String → Option Elem)
    (w : RundeckResponse δ) (c : Caches ρ) :
    (successGet P w c).caches.pprint = c.pprint ∧
    (successGet P w c).caches.as_dict = c.as_dict ∧
    (successGet P w c).caches.api_version = c.api_version ∧
    (successGet P w c).caches.message = c.message := by
  obtain ⟨h1, h2, h3, h4, h5⟩ := etreeGet_frame P w c
  cases hs : c.success.lookup w.instanceId
  · cases hr : (etreeGet P w c).res <;> simp [successGet, hs, hr, h1, h2, h3, h5]
  · simp [successGet, hs]

theorem api_versionGet_frame {ρ δ : Type} (P : String → Option Elem)
    (w : RundeckResponse δ) (c : Caches ρ) :
    (api_versionGet P w c).caches.pprint = c.pprint ∧
    (api_versionGet P w c).caches.as_dict = c.as_dict ∧
    (api_versionGet P w c).caches.success = c.success ∧
    (api_versionGet P w c).caches.message = c.message := by
  obtain ⟨h1, h2, h3, h4, h5⟩ := etreeGet_frame P w c
  cases ha : c.api_version.lookup w.instanceId
  · cases hr : (etreeGet P w c).res with
    | error e => simp [api_versionGet, ha, hr, h1, h2, h4, h5]
    | ok t =>
      cases hat : t.attribGet "apiversion" with
      | none => simp [api_versionGet, ha, hr, hat, h1, h2, h4, h5]
      | some s =>
        cases hpi : pyInt s <;> simp [api_versionGet, ha, hr, hat, hpi, h1, h2, h4, h5]
  · simp [api_versionGet, ha]

theorem messageGet_frame {ρ δ : Type} (P : String → Option Elem)
    (w : RundeckResponse δ) (c : Caches ρ) :
    (messageGet P w c).caches.pprint = c.pprint ∧
    (messageGet P w c).caches.as_dict = c.as_dict ∧
    (messageGet P w c).caches.api_version = c.api_version := by
  obtain ⟨s1, s2, s3, s4⟩ := successGet_frame P w c
  obtain ⟨e1, e2, e3, e4, e5⟩ := etreeGet_frame P w (successGet P w c).caches
  cases hm : c.message.lookup w.instanceId
  · cases hr : (successGet P w c).res with
    | error e => simp [messageGet, hm, hr, s1, s2, s3]
    | ok b =>
      cases hr2 : (etreeGet P w (successGet P w c).caches).res with
      | error e => simp [messageGet, hm, hr, hr2, e1, e2, e3, s1, s2, s3]
      | ok t =>
        cases hf : t.findTag (if b then "success" else "error") with
        | none => simp [messageGet, hm, hr, hr2, hf, e1, e2, e3, s1, s2, s3]
        | some el =>
          cases hg : el.findTag "message" <;>
            simp [messageGet, hm, hr, hr2, hf, hg, e1, e2, e3, s1, s2, s3]
  · simp [messageGet, hm]

/-! String lemmas for the URL builder: digits of the api version, leading
slash stripping, and the `/`-segment view. -/

theorem digitChar_isDigit {k : Nat} (h : k < 10) : (digitChar k).isDigit = true := by
  interval_cases k <;> decide

theorem natToStrAux_mem (fuel : Nat) : ∀ (n : Nat) (acc : Str) (c : Char),
    c ∈ natToStrAux fuel n acc → c.isDigit = true ∨ c ∈ acc := by
  induction fuel with
  | zero => exact fun n acc c hc => Or.inr hc
  | succ f ih =>
    intro n acc c hc
    by_cases hn : n < 10
    · rw [natToStrAux, if_pos hn] at hc
      rcases List.mem_cons.mp hc with h | h
      · exact Or.inl (h ▸ digitChar_isDigit hn)
      · exact Or.inr h
    · rw [natToStrAux, if_neg hn] at hc
      rcases ih (n / 10) (digitChar (n % 10) :: acc) c hc with h | h
      · exact Or.inl h
      · rcases List.mem_cons.mp h with h | h
        · exact Or.inl (h ▸ digitChar_isDigit (Nat.mod_lt n (by omega)))
        · exact Or.inr h

theorem natToStrAux_suffix (fuel : Nat) : ∀ (n : Nat) (acc : Str),
    ∃ l, natToStrAux fuel n acc = l ++ acc := by
  induction fuel with
  | zero => exact fun n acc => ⟨[], rfl⟩
  | succ f ih =>
    intro n acc
    by_cases hn : n < 10
    · exact ⟨[digitChar n], by rw [natToStrAux, if_pos hn]; rfl⟩
    · obtain ⟨l, hl⟩ := ih (n / 10) (digitChar (n % 10) :: acc)
      refine ⟨l ++ [digitChar (n % 10)], ?_⟩
      rw [natToStrAux, if_neg hn, hl]
      simp

theorem natToStr_ne_nil (n : Nat) : natToStr n ≠ [] := by
  unfold natToStr
  rw [natToStrAux]
  by_cases hn : n < 10
  · rw [if_pos hn]
    exact List.cons_ne_nil _ _
  · rw [if_neg hn]
    obtain ⟨l, hl⟩ := natToStrAux_suffix n (n / 10) [digitChar (n % 10)]
    rw [hl]
    simp

theorem natToStr_isDigit {n : Nat} {c : Char} (hc : c ∈ natToStr n) :
    c.isDigit = true := by
  rcases natToStrAux_mem (n + 1) n [] c hc with h | h
  · exact h
  · exact absurd h (List.not_mem_nil c)

theorem intToStr_ne_nil (i : Int) : intToStr i ≠ [] := by
  unfold intToStr
  split
  · exact List.cons_ne_nil _ _
  · exact natToStr_ne_nil _

theorem slash_not_mem_intToStr (i : Int) : '/' ∉ intToStr i := by
  unfold intToStr
  split <;> intro h
  · rcases List.mem_cons.mp h with h | h
    · exact absurd h (by decide)
    · exact absurd (natToStr_isDigit h) (by decide)
  · exact absurd (natToStr_isDigit h) (by decide)

theorem splitSeg_ne_nil (cs : Str) : splitSeg cs ≠ [] := by
  induction cs with
  | nil => simp [splitSeg]
  | cons c rest ih =>
    by_cases hc : c = '/'
    · simp [splitSeg, hc]
    · cases hs : splitSeg rest with
      | nil => exact absurd hs ih
      | cons s ss => simp [splitSeg, hc, hs]

theorem splitSeg_append_sep (a b : Str) :
    splitSeg (a ++ '/' :: b) = splitSeg a ++ splitSeg b := by
  induction a with
  | nil => simp [splitSeg]
  | cons c a ih =>
    by_cases hc : c = '/'
    · subst hc
      simp [splitSeg, ih]
    · cases hs : splitSeg a with
      | nil => exact absurd hs (splitSeg_ne_nil a)
      | cons s ss => simp [splitSeg, hc, ih, hs]

theorem splitSeg_no_sep {cs : Str} (h : '/' ∉ cs) : splitSeg cs = [cs] := by
  induction cs with
  | nil => rfl
  | cons c rest ih =>
    have hc : ¬c = '/' := fun he => h (by rw [he]; exact List.mem_cons_self _ _)
    have hrest : '/' ∉ rest := fun hm => h (List.mem_cons_of_mem c hm)
    simp [splitSeg, hc, ih hrest]

theorem pyLstrip_head_ne (cs : Str) : (pyLstrip cs '/').head? ≠ some '/' := by
  induction cs with
  | nil => simp [pyLstrip]
  | cons c rest ih =>
    by_cases hc : c = '/'
    · simpa [pyLstrip, List.dropWhile, hc] using ih
    · simp [pyLstrip, List.dropWhile, hc]

theorem pyLstrip_replicate (cs : Str) :
    ∃ k, cs = List.replicate k '/' ++ pyLstrip cs '/' := by
  induction cs with
  | nil => exact ⟨0, rfl⟩
  | cons c rest ih =>
    by_cases hc : c = '/'
    · obtain ⟨k, hk⟩ := ih
      refine ⟨k + 1, ?_⟩
      rw [List.replicate_succ]
      simp only [pyLstrip, List.dropWhile, hc]
      simpa [hc] using hk
    · exact ⟨0, by simp [pyLstrip, List.dropWhile, hc]⟩

theorem make_url_eq (conn : RundeckConnection) (p : Str) :
    conn.make_url p =
      conn.base_url ++ '/' :: (intToStr conn.api_version ++ '/' :: pyLstrip p '/') := by
  simp [RundeckConnection.make_url, pyJoin]

theorem init_base_url {server protocol : Str} {port : Nat}
    {tok usr pwd : Option String} {av : Option Int} {conn : RundeckConnection}
    (h : RundeckConnection.init server protocol port tok usr pwd av = .ok conn) :
    ∃ pre, conn.base_url = pre ++ "/api".toList := by
  simp only [RundeckConnection.init] at h
  split at h
  · simp at h
  · split at h
    · injection h with h
      subst h
      exact ⟨_, rfl⟩
    · split at h
      · simp at h
      · injection h with h
        subst h
        exact ⟨_, rfl⟩

theorem make_url_segments (conn : RundeckConnection) (p : Str) :
    splitSeg (conn.make_url p) =
      splitSeg conn.base_url ++ intToStr conn.api_version :: splitSeg (pyLstrip p '/') := by
  rw [make_url_eq, splitSeg_append_sep, splitSeg_append_sep,
    splitSeg_no_sep (slash_not_mem_intToStr conn.api_version)]
  simp

/-! Claim theorems. -/

/-- C1: the claim says a wrapper constructed with a structured-projection
function makes `as_dict` invoke that function and return its result.  The code
instead executes `self._as_dict_method = None`, discarding the constructor
parameter, so for every wrapper constructed with a projection function
supplied, the stored method is `None` and `as_dict` returns `None` without
ever invoking the function (evaluation of the code at the failing input). -/
theorem C1_as_dict_method_discarded {δ ρ : Type}
    (applyFn : δ → RundeckResponse δ → ρ) (response : HTTPResponse)
    (f : δ) (instanceId : String) :
    (RundeckResponse.init response (some f) instanceId)._as_dict_method = none ∧
    (as_dictGet applyFn (RundeckResponse.init response (some f) instanceId)
        (Caches.start (ρ := ρ))).res = .ok none :=
  ⟨rfl, rfl⟩

/-- C2: the claim (and the codes own error message) requires construction to
fail with `InvalidAuthentication` whenever no complete credential is supplied;
the code only raises when api_token, usr and pwd are all absent, so supplying
only a username, or only a password, constructs a connection successfully —
evaluation of the code at the failing inputs, plus the one case the code does
reject. -/
theorem C2_partial_credentials_accepted :
    exceptIsOk (RundeckConnection.init "localhost".toList "http".toList 4440
      none (some "alice") none none) = true ∧
    exceptIsOk (RundeckConnection.init "localhost".toList "http".toList 4440
      none none (some "secret") none) = true ∧
    RundeckConnection.init "localhost".toList "http".toList 4440 none none none none =
      .error (.invalidAuthentication "Must supply either api_token or usr and pwd") :=
  ⟨rfl, rfl, rfl⟩

/-- C10: the port is appended to the server as `host:port` exactly when it
deviates from the protocol implicit default, 80 for http and 443 for https;
construction with an api_token always succeeds, and the resulting `server`
field is the bare host at the default port and `host:port` otherwise. -/
theorem C10_port_suppression (server : Str) (port : Nat) (tok : String)
    (usr pwd : Option String) (av : Option Int) :
    (∃ c, RundeckConnection.init server "http".toList port (some tok) usr pwd av = .ok c ∧
      c.server = if port ≠ 80 then server ++ ':' :: natToStr port else server) ∧
    (∃ c, RundeckConnection.init server "https".toList port (some tok) usr pwd av = .ok c ∧
      c.server = if port ≠ 443 then server ++ ':' :: natToStr port else server) := by
  constructor
  · by_cases hp : port = 80
    · subst hp
      exact ⟨_, rfl, by simp [RundeckConnection.init]⟩
    · refine ⟨{ protocol := "http".toList, usr := usr, pwd := pwd,
                server := server ++ ':' :: natToStr port,
                api_token := some tok, api_version := av.getD RUNDECK_API_VERSION,
                auth_header := some tok,
                base_url := "http".toList ++ "://".toList ++
                  (server ++ ':' :: natToStr port) ++ "/api".toList }, ?_, ?_⟩
      · simp +decide [RundeckConnection.init, hp]
      · simp [hp]
  · by_cases hp : port = 443
    · subst hp
      exact ⟨_, rfl, by simp [RundeckConnection.init]⟩
    · refine ⟨{ protocol := "https".toList, usr := usr, pwd := pwd,
                server := server ++ ':' :: natToStr port,
                api_token := some tok, api_version := av.getD RUNDECK_API_VERSION,
                auth_header := some tok,
                base_url := "https".toList ++ "://".toList ++
                  (server ++ ':' :: natToStr port) ++ "/api".toList }, ?_, ?_⟩
      · simp +decide [RundeckConnection.init, hp]
      · simp [hp]

/-- C8: when the HTTP exchange behind `execute_cmd` yields a 4xx or 5xx
status, `raise_for_status` raises an HTTP error carrying the status code and
body and no wrapper is produced; when it yields a 2xx status, `execute_cmd`
returns a `RundeckResponse` wrapping the raw response. -/
theorem C8_execute_cmd_http_errors {δ : Type} (transport : Str → Str → HTTPResponse)
    (conn : RundeckConnection) (method url : Str) (pr : Bool) (instanceId : String)
    (resp : HTTPResponse) (ht : transport method (conn.make_url url) = resp) :
    (400 ≤ resp.status_code ∧ resp.status_code < 600 →
      RundeckConnection.execute_cmd (δ := δ) transport conn method url pr instanceId =
        .error (.httpError resp.status_code resp.text)) ∧
    (200 ≤ resp.status_code ∧ resp.status_code < 300 →
      RundeckConnection.execute_cmd (δ := δ) transport conn method url pr instanceId =
        .ok (RundeckResponse.init resp none instanceId)) := by
  constructor
  · intro h
    simp [RundeckConnection.execute_cmd, raise_for_status, ht, h]
  · intro h
    have hn : ¬(400 ≤ resp.status_code ∧ resp.status_code < 600) := by omega
    simp [RundeckConnection.execute_cmd, raise_for_status, ht, hn]

/-- C8 witness: a mock transport answering 403 makes `execute_cmd` raise the
HTTP error with status and body, and one answering 200 yields a wrapper
around the raw response. -/
theorem C8_execute_cmd_http_errors_witness :
    RundeckConnection.execute_cmd (δ := Unit) (fun _ _ => ⟨403, "forbidden"⟩) connB
        "GET".toList "/system/info".toList true "idW" =
      .error (.httpError 403 "forbidden") ∧
    RundeckConnection.execute_cmd (δ := Unit) (fun _ _ => ⟨200, "<result/>"⟩) connB
        "GET".toList "/system/info".toList true "idW" =
      .ok (RundeckResponse.init ⟨200, "<result/>"⟩ none "idW") :=
  ⟨(C8_execute_cmd_http_errors _ connB _ _ true "idW" _ rfl).1 (by decide),
   (C8_execute_cmd_http_errors _ connB _ _ true "idW" _ rfl).2 (by decide)⟩

/-- C3 counterexample: for the well-formed body whose root carries the
success marker but has no `success` child, `message` fails with
`AttributeError` (a `None` find result is dereferenced), which is not the
parse error that a body that is not well-formed XML raises — the error the
spec taxonomy names `MalformedResponseError` (third conjunct). -/
theorem C3_missing_element_not_malformed_error :
    (messageGet (fun _ => some rootBare) wOk (Caches.start (ρ := Unit))).res =
      .error .attributeError ∧
    (messageGet (fun _ => some rootBare) wOk (Caches.start (ρ := Unit))).res ≠
      .error .parseError ∧
    (etreeGet PNone wOk (Caches.start (ρ := Unit))).res = .error .parseError :=
  ⟨rfl, by decide, rfl⟩

/-- C3 (amended): when the body parses but the expected nested element is
absent — no `success`/`error` child matching the success flag, or that child
lacks a `message` child — `message` fails, but with the generic
`AttributeError` from dereferencing a `None` lookup result, not with the
XML-parse (malformed-response) error. -/
theorem C3_missing_element_attribute_error {ρ δ : Type}
    (P : String → Option Elem) (w : RundeckResponse δ) (root : Elem)
    (hP : P w.body = some root)
    (hmiss : ((root.findTag
        (if (root.attribGet "success").isSome then "success" else "error")).bind
      (fun el => el.findTag "message")) = none) :
    (messageGet P w (Caches.start (ρ := ρ))).res = .error .attributeError := by
  rcases hfind : root.findTag
      (if (root.attribGet "success").isSome then "success" else "error") with _ | el
  · simp [messageGet, successGet_start_ok hP, etreeGet, hfind]
  · rw [hfind] at hmiss
    simp only [Option.some_bind] at hmiss
    simp [messageGet, successGet_start_ok hP, etreeGet, hfind, hmiss]

/-- C3 witness: a root whose `success` child lacks a `message` child makes
`message` raise `AttributeError`. -/
theorem C3_missing_element_attribute_error_witness :
    (messageGet (fun _ => some rootNoMsg) wErr (Caches.start (ρ := Unit))).res =
      .error .attributeError :=
  C3_missing_element_attribute_error _ _ _ rfl rfl

/-- C9: constructing the wrapper stores the raw response untouched, is total,
and parses nothing; when the body is not well-formed XML (the parser fails on
it), the parse error surfaces exactly at the first access to `etree` or to an
accessor depending on it (`success`, `api_version`, `message`), each running
its computation at that access, while the accessors not depending on the
document tree (`pprint` with its own parse, `as_dict`) still operate
normally. -/
theorem C9_lazy_parse_failure {ρ δ : Type}
    (P : String → Option Elem) (PP : String → Option String)
    (applyFn : δ → RundeckResponse δ → ρ) (response : HTTPResponse)
    (m : Option δ) (instanceId : String) (pretty : String)
    (hP : P response.text = none) (hPP : PP response.text = some pretty) :
    (RundeckResponse.init response m instanceId)._response = response ∧
    etreeGet P (RundeckResponse.init response m instanceId) (Caches.start (ρ := ρ)) =
      ⟨.error .parseError, Caches.start, { etree := 1 }⟩ ∧
    successGet P (RundeckResponse.init response m instanceId) (Caches.start (ρ := ρ)) =
      ⟨.error .parseError, Caches.start, { etree := 1, success := 1 }⟩ ∧
    api_versionGet P (RundeckResponse.init response m instanceId) (Caches.start (ρ := ρ)) =
      ⟨.error .parseError, Caches.start, { etree := 1, api_version := 1 }⟩ ∧
    messageGet P (RundeckResponse.init response m instanceId) (Caches.start (ρ := ρ)) =
      ⟨.error .parseError, Caches.start, { etree := 1, success := 1, message := 1 }⟩ ∧
    pprintGet PP (RundeckResponse.init response m instanceId) (Caches.start (ρ := ρ)) =
      ⟨.ok pretty, ⟨[], [(instanceId, pretty)], [], [], [], []⟩, { pprint := 1 }⟩ ∧
    as_dictGet applyFn (RundeckResponse.init response m instanceId) (Caches.start (ρ := ρ)) =
      ⟨.ok none, ⟨[], [], [(instanceId, none)], [], [], []⟩, { as_dict := 1 }⟩ := by
  have hP' : P (RundeckResponse.init response m instanceId).body = none := hP
  have hPP' : PP (RundeckResponse.init response m instanceId).body = some pretty := hPP
  exact ⟨rfl, etreeGet_start_fail hP', successGet_start_fail hP',
    api_versionGet_start_fail hP', messageGet_start_fail hP',
    pprintGet_start_ok hPP', as_dictGet_start applyFn _⟩

/-- C9 witness: a wrapper over the body `not xml` fails with the parse error
at the first `etree` access while `pprint` still succeeds. -/
theorem C9_lazy_parse_failure_witness :
    etreeGet PNone wBad (Caches.start (ρ := Unit)) =
      ⟨.error .parseError, Caches.start, { etree := 1 }⟩ ∧
    pprintGet PPOk wBad (Caches.start (ρ := Unit)) =
      ⟨.ok "pretty not xml", ⟨[], [("idBad", "pretty not xml")], [], [], [], []⟩,
       { pprint := 1 }⟩ :=
  ⟨(C9_lazy_parse_failure PNone PPOk (fun _ _ => ()) ⟨200, "not xml"⟩ none "idBad"
      "pretty not xml" rfl rfl).2.1,
   (C9_lazy_parse_failure PNone PPOk (fun _ _ => ()) ⟨200, "not xml"⟩ none "idBad"
      "pretty not xml" rfl rfl).2.2.2.2.2.1⟩

/-- C5 counterexample: a first access to `success` on a fresh wrapper changes
the `etree` cache slot as well (the `success` body invokes the memoized
`etree` accessor, whose value is cached), so a cache slot other than the
accessed accessor does not stay unchanged. -/
theorem C5_success_populates_etree_cache :
    (successGet POk wOk (Caches.start (ρ := Unit))).res = .ok true ∧
    (successGet POk wOk (Caches.start (ρ := Unit))).caches.etree.length = 1 ∧
    (Caches.start (ρ := Unit)).etree.length = 0 ∧
    (successGet POk wOk (Caches.start (ρ := Unit))).caches.etree ≠
      (Caches.start (ρ := Unit)).etree := by
  refine ⟨rfl, rfl, rfl, fun h => absurd (congrArg List.length h) (by decide)⟩

/-- C5 (amended): every accessor has its own cache slot, and an accessor run
leaves the slot of every accessor it does not invoke unchanged: `etree`,
`pprint` and `as_dict` touch only their own slot, `success` and `api_version`
touch at most their own slot and the `etree` slot (they invoke the memoized
`etree`), and `message` touches at most its own slot and the `success` and
`etree` slots (it invokes both); computing one accessor can therefore
populate the caches of exactly the accessors it invokes, and no others. -/
theorem C5_accessor_independence {ρ δ : Type} (P : String → Option Elem)
    (PP : String → Option String) (applyFn : δ → RundeckResponse δ → ρ)
    (w : RundeckResponse δ) (c : Caches ρ) :
    ((etreeGet P w c).caches.pprint = c.pprint ∧
     (etreeGet P w c).caches.as_dict = c.as_dict ∧
     (etreeGet P w c).caches.api_version = c.api_version ∧
     (etreeGet P w c).caches.success = c.success ∧
     (etreeGet P w c).caches.message = c.message) ∧
    ((pprintGet PP w c).caches.etree = c.etree ∧
     (pprintGet PP w c).caches.as_dict = c.as_dict ∧
     (pprintGet PP w c).caches.api_version = c.api_version ∧
     (pprintGet PP w c).caches.success = c.success ∧
     (pprintGet PP w c).caches.message = c.message) ∧
    ((as_dictGet applyFn w c).caches.etree = c.etree ∧
     (as_dictGet applyFn w c).caches.pprint = c.pprint ∧
     (as_dictGet applyFn w c).caches.api_version = c.api_version ∧
     (as_dictGet applyFn w c).caches.success = c.success ∧
     (as_dictGet applyFn w c).caches.message = c.message) ∧
    ((api_versionGet P w c).caches.pprint = c.pprint ∧
     (api_versionGet P w c).caches.as_dict = c.as_dict ∧
     (api_versionGet P w c).caches.success = c.success ∧
     (api_versionGet P w c).caches.message = c.message) ∧
    ((successGet P w c).caches.pprint = c.pprint ∧
     (successGet P w c).caches.as_dict = c.as_dict ∧
     (successGet P w c).caches.api_version = c.api_version ∧
     (successGet P w c).caches.message = c.message) ∧
    ((messageGet P w c).caches.pprint = c.pprint ∧
     (messageGet P w c).caches.as_dict = c.as_dict ∧
     (messageGet P w c).caches.api_version = c.api_version) :=
  ⟨etreeGet_frame P w c, pprintGet_frame PP w c, as_dictGet_frame applyFn w c,
   api_versionGet_frame P w c, successGet_frame P w c, messageGet_frame P w c⟩

/-- C7: for a wrapper whose body parses, `success` is true exactly when the
root element carries a `success` attribute (key membership in the root
attribute dictionary), and `message` returns the text of the `message` child
of the `success` child of the root when the flag is true, and of the `error`
child otherwise. -/
theorem C7_success_flag_and_message {ρ δ : Type} (P : String → Option Elem)
    (w : RundeckResponse δ) (root : Elem) (hP : P w.body = some root) :
    (successGet P w (Caches.start (ρ := ρ))).res =
      .ok ((root.attribGet "success").isSome) ∧
    (∀ (sel mel : Elem) (sv : String), root.attribGet "success" = some sv →
      root.findTag "success" = some sel → sel.findTag "message" = some mel →
      (messageGet P w (Caches.start (ρ := ρ))).res = .ok mel.text) ∧
    (∀ eel mel : Elem, root.attribGet "success" = none →
      root.findTag "error" = some eel → eel.findTag "message" = some mel →
      (messageGet P w (Caches.start (ρ := ρ))).res = .ok mel.text) := by
  refine ⟨?_, ?_, ?_⟩
  · rw [successGet_start_ok hP]
  · intro sel mel sv hs hf hm
    rw [messageGet_start_ok hP hs hf hm]
  · intro eel mel hs hf hm
    rw [messageGet_start_err hP hs hf hm]

/-- C7 witness: the sample success body yields success true and message `ok`;
the sample error body yields success false and message `bad job id`. -/
theorem C7_success_flag_and_message_witness :
    (successGet POk wOk (Caches.start (ρ := Unit))).res = .ok true ∧
    (messageGet POk wOk (Caches.start (ρ := Unit))).res = .ok (some "ok") ∧
    (successGet (fun _ => some rootErr) wErr (Caches.start (ρ := Unit))).res = .ok false ∧
    (messageGet (fun _ => some rootErr) wErr (Caches.start (ρ := Unit))).res =
      .ok (some "bad job id") :=
  ⟨(C7_success_flag_and_message POk wOk rootOk rfl).1,
   (C7_success_flag_and_message POk wOk rootOk rfl).2.1 selOk melOk "" rfl rfl rfl,
   (C7_success_flag_and_message (fun _ => some rootErr) wErr rootErr rfl).1,
   (C7_success_flag_and_message (fun _ => some rootErr) wErr rootErr rfl).2.2
     eelErr melErr rfl rfl rfl⟩

/-- C4 counterexample: on a wrapper whose body does not parse, the first
`etree` access runs the computation (and raises, caching nothing), and a
second access runs the computation again — two runs, not exactly one, for two
accesses on the same instance. -/
theorem C4_failed_compute_recomputes :
    (etreeGet PNone wBad (Caches.start (ρ := Unit))).counts.etree = 1 ∧
    (etreeGet PNone wBad
      ((etreeGet PNone wBad (Caches.start (ρ := Unit))).caches)).counts.etree = 1 ∧
    (etreeGet PNone wBad (Caches.start (ρ := Unit))).counts.etree +
      (etreeGet PNone wBad
        ((etreeGet PNone wBad (Caches.start (ρ := Unit))).caches)).counts.etree ≠ 1 :=
  ⟨rfl, rfl, by decide⟩

/-- C4 (amended): for accesses whose underlying computation succeeds, each
memoized accessor on a fresh instance computes exactly once on first access,
and a second access on the same instance returns the cached value with no
computation at all and no cache change (a computation that raises is instead
not cached and reruns, see the counterexample); the caches are per accessor
and keyed per instance, so a second wrapper with a distinct identity finds
nothing cached: its first access after the first wrapper has populated the
cache still computes once, from its own body. -/
theorem C4_memoize_once_per_instance {ρ δ : Type}
    (P : String → Option Elem) (PP : String → Option String)
    (applyFn : δ → RundeckResponse δ → ρ) (w1 w2 : RundeckResponse δ)
    (root1 sel1 mel1 root2 sel2 mel2 : Elem) (pretty1 pretty2 sv1 sv2 : String)
    (hne : w2.instanceId ≠ w1.instanceId)
    (hP1 : P w1.body = some root1) (hPP1 : PP w1.body = some pretty1)
    (hav1 : root1.attribGet "apiversion" = none)
    (hs1 : root1.attribGet "success" = some sv1)
    (hf1 : root1.findTag "success" = some sel1)
    (hm1 : sel1.findTag "message" = some mel1)
    (hP2 : P w2.body = some root2) (hPP2 : PP w2.body = some pretty2)
    (hav2 : root2.attribGet "apiversion" = none)
    (hs2 : root2.attribGet "success" = some sv2)
    (hf2 : root2.findTag "success" = some sel2)
    (hm2 : sel2.findTag "message" = some mel2) :
    ((etreeGet P w1 (Caches.start (ρ := ρ))).res = .ok root1 ∧
     (etreeGet P w1 (Caches.start (ρ := ρ))).counts.etree = 1 ∧
     etreeGet P w1 (etreeGet P w1 (Caches.start (ρ := ρ))).caches =
       ⟨.ok root1, (etreeGet P w1 (Caches.start (ρ := ρ))).caches, {}⟩ ∧
     (etreeGet P w2 (etreeGet P w1 (Caches.start (ρ := ρ))).caches).res = .ok root2 ∧
     (etreeGet P w2 (etreeGet P w1 (Caches.start (ρ := ρ))).caches).counts.etree = 1) ∧
    ((pprintGet PP w1 (Caches.start (ρ := ρ))).res = .ok pretty1 ∧
     (pprintGet PP w1 (Caches.start (ρ := ρ))).counts.pprint = 1 ∧
     pprintGet PP w1 (pprintGet PP w1 (Caches.start (ρ := ρ))).caches =
       ⟨.ok pretty1, (pprintGet PP w1 (Caches.start (ρ := ρ))).caches, {}⟩ ∧
     (pprintGet PP w2 (pprintGet PP w1 (Caches.start (ρ := ρ))).caches).res = .ok pretty2 ∧
     (pprintGet PP w2 (pprintGet PP w1 (Caches.start (ρ := ρ))).caches).counts.pprint = 1) ∧
    ((as_dictGet applyFn w1 (Caches.start (ρ := ρ))).res =
       .ok (Option.map (fun f => applyFn f w1) w1._as_dict_method) ∧
     (as_dictGet applyFn w1 (Caches.start (ρ := ρ))).counts.as_dict = 1 ∧
     as_dictGet applyFn w1 (as_dictGet applyFn w1 (Caches.start (ρ := ρ))).caches =
       ⟨.ok (Option.map (fun f => applyFn f w1) w1._as_dict_method),
        (as_dictGet applyFn w1 (Caches.start (ρ := ρ))).caches, {}⟩ ∧
     (as_dictGet applyFn w2 (as_dictGet applyFn w1 (Caches.start (ρ := ρ))).caches).res =
       .ok (Option.map (fun f => applyFn f w2) w2._as_dict_method) ∧
     (as_dictGet applyFn w2
       (as_dictGet applyFn w1 (Caches.start (ρ := ρ))).caches).counts.as_dict = 1) ∧
    ((api_versionGet P w1 (Caches.start (ρ := ρ))).res = .ok (-1) ∧
     (api_versionGet P w1 (Caches.start (ρ := ρ))).counts.api_version = 1 ∧
     api_versionGet P w1 (api_versionGet P w1 (Caches.start (ρ := ρ))).caches =
       ⟨.ok (-1), (api_versionGet P w1 (Caches.start (ρ := ρ))).caches, {}⟩ ∧
     (api_versionGet P w2 (api_versionGet P w1 (Caches.start (ρ := ρ))).caches).res =
       .ok (-1) ∧
     (api_versionGet P w2
       (api_versionGet P w1 (Caches.start (ρ := ρ))).caches).counts.api_version = 1) ∧
    ((successGet P w1 (Caches.start (ρ := ρ))).res = .ok true ∧
     (successGet P w1 (Caches.start (ρ := ρ))).counts.success = 1 ∧
     successGet P w1 (successGet P w1 (Caches.start (ρ := ρ))).caches =
       ⟨.ok true, (successGet P w1 (Caches.start (ρ := ρ))).caches, {}⟩ ∧
     (successGet P w2 (successGet P w1 (Caches.start (ρ := ρ))).caches).res = .ok true ∧
     (successGet P w2 (successGet P w1 (Caches.start (ρ := ρ))).caches).counts.success = 1) ∧
    ((messageGet P w1 (Caches.start (ρ := ρ))).res = .ok mel1.text ∧
     (messageGet P w1 (Caches.start (ρ := ρ))).counts.message = 1 ∧
     messageGet P w1 (messageGet P w1 (Caches.start (ρ := ρ))).caches =
       ⟨.ok mel1.text, (messageGet P w1 (Caches.start (ρ := ρ))).caches, {}⟩ ∧
     (messageGet P w2 (messageGet P w1 (Caches.start (ρ := ρ))).caches).res =
       .ok mel2.text ∧
     (messageGet P w2 (messageGet P w1 (Caches.start (ρ := ρ))).caches).counts.message = 1) := by
  have E1 := etreeGet_start_ok (ρ := ρ) hP1
  have PR1 := pprintGet_start_ok (ρ := ρ) hPP1
  have D1 := as_dictGet_start (ρ := ρ) applyFn w1
  have A1 := api_versionGet_start_noattr (ρ := ρ) hP1 hav1
  have S1 := successGet_start_ok (ρ := ρ) hP1
  have M1 := messageGet_start_ok (ρ := ρ) hP1 hs1 hf1 hm1
  refine ⟨⟨?_, ?_, ?_, ?_, ?_⟩, ⟨?_, ?_, ?_, ?_, ?_⟩, ⟨?_, ?_, ?_, ?_, ?_⟩,
    ⟨?_, ?_, ?_, ?_, ?_⟩, ⟨?_, ?_, ?_, ?_, ?_⟩, ⟨?_, ?_, ?_, ?_, ?_⟩⟩
  · rw [E1]
  · rw [E1]
  · rw [E1]
    exact etreeGet_hit (by simp)
  · rw [E1]
    simp [etreeGet, lookup_cons_ne hne, hP2]
  · rw [E1]
    simp [etreeGet, lookup_cons_ne hne, hP2]
  · rw [PR1]
  · rw [PR1]
  · rw [PR1]
    exact pprintGet_hit (by simp)
  · rw [PR1]
    simp [pprintGet, lookup_cons_ne hne, hPP2]
  · rw [PR1]
    simp [pprintGet, lookup_cons_ne hne, hPP2]
  · rw [D1]
  · rw [D1]
  · rw [D1]
    exact as_dictGet_hit (by simp)
  · rw [D1]
    cases h2 : w2._as_dict_method <;>
      simp [as_dictGet, lookup_cons_ne hne, h2]
  · rw [D1]
    cases h2 : w2._as_dict_method <;>
      simp [as_dictGet, lookup_cons_ne hne, h2]
  · rw [A1]
  · rw [A1]
  · rw [A1]
    exact api_versionGet_hit (by simp)
  · rw [A1]
    simp [api_versionGet, etreeGet, lookup_cons_ne hne, hP2, hav2]
  · rw [A1]
    simp [api_versionGet, etreeGet, lookup_cons_ne hne, hP2, hav2]
  · rw [S1, hs1]
    rfl
  · rw [S1]
  · rw [S1]
    have := successGet_hit (ρ := ρ) (P := P) (w := w1)
      (c := ⟨[(w1.instanceId, root1)], [], [], [],
        [(w1.instanceId, (root1.attribGet "success").isSome)], []⟩)
      (v := (root1.attribGet "success").isSome) (by simp)
    rw [this, hs1]
    rfl
  · rw [S1]
    simp [successGet, etreeGet, lookup_cons_ne hne, hP2, hs2]
  · rw [S1]
    simp [successGet, etreeGet, lookup_cons_ne hne, hP2, hs2]
  · rw [M1]
  · rw [M1]
  · rw [M1]
    exact messageGet_hit (by simp)
  · rw [M1]
    simp [messageGet, successGet, etreeGet, lookup_cons_ne hne, hP2, hs2, hf2, hm2,
      Counts.add]
  · rw [M1]
    simp [messageGet, successGet, etreeGet, lookup_cons_ne hne, hP2, hs2, hf2, hm2,
      Counts.add]

/-- C4 witness: two wrappers with distinct identities over bodies `b1` and
`b2`; the first `message` access on the first wrapper computes `ok`, a second
access returns it from the cache with no computation, and the second wrapper
still computes its own message `ok2` from its own body. -/
theorem C4_memoize_once_per_instance_witness :
    (messageGet P12 wOk (Caches.start (ρ := Nat))).res = .ok (some "ok") ∧
    messageGet P12 wOk (messageGet P12 wOk (Caches.start (ρ := Nat))).caches =
      ⟨.ok (some "ok"), (messageGet P12 wOk (Caches.start (ρ := Nat))).caches, {}⟩ ∧
    (messageGet P12 wOk2 (messageGet P12 wOk (Caches.start (ρ := Nat))).caches).res =
      .ok (some "ok2") ∧
    (messageGet P12 wOk2
      (messageGet P12 wOk (Caches.start (ρ := Nat))).caches).counts.message = 1 := by
  have T := C4_memoize_once_per_instance P12 PPOk (fun _ _ => (0 : Nat)) wOk wOk2
    rootOk selOk melOk rootOk2 selOk2 melOk2 "pretty b1" "pretty b2" "" ""
    (by decide) rfl rfl rfl rfl rfl rfl rfl rfl rfl rfl rfl rfl
  exact ⟨T.2.2.2.2.2.1, T.2.2.2.2.2.2.2.1, T.2.2.2.2.2.2.2.2.1, T.2.2.2.2.2.2.2.2.2⟩

/-- C6 counterexample: `lstrip('/')` strips every leading slash, not a single
one, so for the api path `//x` the claimed formula (single leading slash
stripped) disagrees with `make_url`: the code yields `.../api/11/x` while the
single-strip formula yields `.../api/11//x`. -/
theorem C6_single_strip_formula_fails :
    RundeckConnection.init "localhost".toList "http".toList 4440 (some "tok")
      none none (some 11) = .ok connB ∧
    connB.make_url "//x".toList = "http://localhost:4440/api/11/x".toList ∧
    specMakeUrlSingleStrip connB "//x".toList =
      "http://localhost:4440/api/11//x".toList ∧
    connB.make_url "//x".toList ≠ specMakeUrlSingleStrip connB "//x".toList :=
  ⟨rfl, rfl, rfl, by decide⟩

/-- C6 (amended): `make_url` returns base_url, slash, the api version, slash,
and the api path with all leading slashes stripped; the stripped path never
starts with a slash and the api version renders to a nonempty slash-free
digit string while base_url ends in `/api`, so no doubled slash arises at
either join point; the segment view of the result is the segments of base_url
followed by exactly one api-version segment followed by the segments of the
stripped path (internal slashes preserved); and the path differs from its
stripped form only by a leading run of slashes. -/
theorem C6_make_url_all_leading_slashes {server protocol : Str} {port : Nat}
    {tok usr pwd : Option String} {av : Option Int} {conn : RundeckConnection}
    (p : Str)
    (h : RundeckConnection.init server protocol port tok usr pwd av = .ok conn) :
    conn.make_url p =
      conn.base_url ++ '/' :: (intToStr conn.api_version ++ '/' :: pyLstrip p '/') ∧
    (∃ pre, conn.base_url = pre ++ "/api".toList) ∧
    intToStr conn.api_version ≠ [] ∧
    '/' ∉ intToStr conn.api_version ∧
    (pyLstrip p '/').head? ≠ some '/' ∧
    splitSeg (conn.make_url p) =
      splitSeg conn.base_url ++ intToStr conn.api_version :: splitSeg (pyLstrip p '/') ∧
    (∃ k, p = List.replicate k '/' ++ pyLstrip p '/') :=
  ⟨make_url_eq conn p, init_base_url h, intToStr_ne_nil _, slash_not_mem_intToStr _,
   pyLstrip_head_ne p, make_url_segments conn p, pyLstrip_replicate p⟩

/-- C6 witness: for the sample connection and the path `/jobs/run`, the
amended formula holds and evaluates to the expected URL. -/
theorem C6_make_url_all_leading_slashes_witness :
    connB.make_url "/jobs/run".toList =
      connB.base_url ++ '/' :: (intToStr connB.api_version ++ '/' ::
        pyLstrip "/jobs/run".toList '/') ∧
    connB.make_url "/jobs/run".toList =
      "http://localhost:4440/api/11/jobs/run".toList :=
  ⟨(C6_make_url_all_leading_slashes "/jobs/run".toList
      (rfl : RundeckConnection.init "localhost".toList "http".toList 4440 (some "tok")
        none none (some 11) = .ok connB)).1,
   by decide⟩

end Rundeckrun
